import Mathlib

/-!
Verification of the backup/restore engine of the maas-region charm
(`src/maas-region/src/backups.py`).  The Python code is shallowly embedded:
pure string manipulation is translated to executable Lean functions on
`String`/`List Char`, and every external effect (S3 calls, filesystem
writes, the action-event sink) is threaded explicitly through environment
records and result values.
-/

/-! ## Python string primitives -/

/-- Python string comparison (`s < t`): lexicographic on code points,
a strict prefix is smaller. -/
def pyLexLt : List Char → List Char → Bool
  | [], [] => false
  | [], _ :: _ => true
  | _ :: _, [] => false
  | a :: as, b :: bs =>
    if a.toNat < b.toNat then true
    else if b.toNat < a.toNat then false
    else pyLexLt as bs

/-- Python `s < t` on `String`. -/
def pyStrLt (s t : String) : Bool := pyLexLt s.data t.data

/-- Drop leading characters that belong to the given character set
(`str.lstrip(chars)` semantics: `chars` is a set, not a prefix). -/
def stripLeftSet (set : List Char) : List Char → List Char
  | [] => []
  | c :: cs => if c ∈ set then stripLeftSet set cs else c :: cs

/-- Python `s.lstrip(chars)`. -/
def pyLstrip (chars s : String) : String :=
  String.mk (stripLeftSet chars.data s.data)

/-- Python `s.rstrip(chars)`. -/
def pyRstrip (chars s : String) : String :=
  String.mk (stripLeftSet chars.data s.data.reverse).reverse

/-- Python `s.strip(chars)`. -/
def pyStrip (chars s : String) : String :=
  pyRstrip chars (pyLstrip chars s)

/-- Python whitespace characters stripped by `str.strip()`. -/
def pyWhitespace : List Char := [' ', '\t', '\n', '\x0d', '\x0b', '\x0c']

/-- Python `s.strip()` (no argument: strips whitespace). -/
def pyStripWs (s : String) : String :=
  String.mk (stripLeftSet pyWhitespace
    (stripLeftSet pyWhitespace s.data).reverse).reverse

/-- Python `s.split(sep)` for a one-character separator, no maxsplit:
always returns at least one (possibly empty) field. -/
def splitCharAll (sep : Char) : List Char → List (List Char)
  | [] => [[]]
  | c :: cs =>
    match splitCharAll sep cs with
    | [] => [[]]
    | f :: fs => if c = sep then [] :: f :: fs else (c :: f) :: fs

/-- Python `s.split(sep, maxsplit)` for a one-character separator:
at most `n` splits, counted from the left. -/
def splitCharMax (sep : Char) : Nat → List Char → List (List Char)
  | _, [] => [[]]
  | n, c :: cs =>
    if c = sep then
      match n with
      | 0 => [c :: cs]
      | Nat.succ m => [] :: splitCharMax sep m cs
    else
      match splitCharMax sep n cs with
      | [] => [[c]]
      | f :: fs => (c :: f) :: fs

/-- Python `s.split(sep)` on `String` for a one-character separator. -/
def pySplit (sep : Char) (s : String) : List String :=
  (splitCharAll sep s.data).map String.mk

/-- Python `s.split(sep, n)` on `String` for a one-character separator. -/
def pySplitMax (sep : Char) (n : Nat) (s : String) : List String :=
  (splitCharMax sep n s.data).map String.mk

/-- Python `s.removeprefix(p)`: drop `p` only when it is a literal
leading substring. -/
def pyRemoveLeading (p s : String) : String :=
  if p.data.isPrefixOf s.data then String.mk (s.data.drop p.data.length) else s

/-- `os.path.join(a, b)` for the cases the engine exercises
(`b` never absolute here would take precedence if it were). -/
def osPathJoin (a b : String) : String :=
  if b.startsWith "/" then b
  else if a = "" then b
  else if a.endsWith "/" then a ++ b
  else a ++ "/" ++ b

/-- Stable insertion of a keyed element into an ascending list
(equal keys go after existing ones, matching Python `list.sort`). -/
def insertByKey {α : Type} (key : α → String) (x : α) : List α → List α
  | [] => [x]
  | y :: ys => if pyStrLt (key x) (key y) then x :: y :: ys else y :: insertByKey key x ys

/-- Stable ascending sort by a string key (Python `list.sort(key=...)`). -/
def sortByKey {α : Type} (key : α → String) (l : List α) : List α :=
  l.foldl (fun acc x => insertByKey key x acc) []

/-- Bool-valued set equality of string lists (Python `set(a) == set(b)`). -/
def sameSet (a b : List String) : Bool :=
  a.all (fun x => x ∈ b) && b.all (fun x => x ∈ a)

example : pyStrLt "10" "9" = true := by decide
example : pySplit '\n' "" = [""] := by decide
example : pySplit '\n' "a\nb" = ["a", "b"] := by decide
example : pySplitMax '.' 2 "3.6.1-g123" = ["3", "6", "1-g123"] := by decide
example : pySplitMax '.' 2 "3.6" = ["3", "6"] := by decide
example : pyLstrip "v2/backup/" "v2/backup/2025-09-01T00:00:00Z/"
    = "025-09-01T00:00:00Z/" := by decide
example : pyRemoveLeading "v2/backup/" "v2/backup/2025-09-01T00:00:00Z/"
    = "2025-09-01T00:00:00Z/" := by decide

/-! ## Action events, Python exceptions, parsed JSON documents -/

/-- The Python exception kinds that can cross the functions we embed. -/
inductive PyExc where
  | botoCoreError
  | jsonDecodeError
  | valueError
  | keyError
deriving DecidableEq

/-- The observable state of an `ops.ActionEvent`: accumulated `event.fail`
messages, `event.set_results` payload and `event.log` lines. -/
structure Event where
  failures : List String := []
  results : List (String × String) := []
  logs : List String := []
deriving DecidableEq

/-- `event.fail(msg)`. -/
def eventFail (ev : Event) (msg : String) : Event :=
  { ev with failures := ev.failures ++ [msg] }

/-- `event.set_results(d)`. -/
def eventSetResults (ev : Event) (res : List (String × String)) : Event :=
  { ev with results := res }

/-- `event.log(msg)`. -/
def eventLog (ev : Event) (msg : String) : Event :=
  { ev with logs := ev.logs ++ [msg] }

/-- `MAASBackups._log_error`: log, then `event.fail` with an optional
prefix and an optional distinct fail message. -/
def log_error (ev : Event) (msg : String) (failMsg : Option String := none)
    (msgPrefix : Option String := none) : Event :=
  let message := failMsg.getD msg
  match msgPrefix with
  | some p => eventFail ev (p ++ ": " ++ message)
  | none => eventFail ev message

/-- A backup-metadata JSON document as stored in the repository:
either undecodable, or an object with the two fields the engine reads
(`maas_snap_version`, `success`); `none` models an absent key. -/
inductive JsonDoc where
  | malformed
  | obj (maasSnapVersion : Option String) (success : Option Bool)
deriving DecidableEq

/-- The body of an object read back from S3, at the granularity the
engine needs: plain text, or text that `json.loads` would parse into a
`JsonDoc` (with `JsonDoc.malformed` standing for undecodable bytes). -/
inductive S3Text where
  | plain (s : String)
  | jsonObj (doc : JsonDoc)
deriving DecidableEq

/-- Python truthiness of a downloaded string (`if metadata_str := ...`):
empty text is falsy. -/
def s3TextEmpty : S3Text → Bool
  | S3Text.plain s => s = ""
  | S3Text.jsonObj _ => false

/-- `json.loads` on a downloaded body: undecodable input raises
`json.JSONDecodeError`. -/
def pyJsonLoads : S3Text → Except PyExc JsonDoc
  | S3Text.jsonObj JsonDoc.malformed => Except.error PyExc.jsonDecodeError
  | S3Text.jsonObj d => Except.ok d
  | S3Text.plain _ => Except.error PyExc.jsonDecodeError

/-! ## S3 connection parameters (`_retrieve_s3_parameters`) -/

/-- The raw connection data offered by the s3-integrator relation
(`S3Requirer.get_s3_connection_info`); `none` models an absent key. -/
structure S3ConnInfo where
  bucket : Option String := none
  accessKey : Option String := none
  secretKey : Option String := none
  endpoint : Option String := none
  region : Option String := none
  path : Option String := none
  s3UriStyle : Option String := none
  deleteOlderThanDays : Option String := none
deriving DecidableEq

/-- The normalized parameter set produced by `_retrieve_s3_parameters`
when nothing required is missing. -/
structure S3Params where
  bucket : String
  accessKey : String
  secretKey : String
  endpoint : String
  region : String
  path : String
  s3UriStyle : String
  deleteOlderThanDays : String
deriving DecidableEq

/-- Python `repr` of a list of strings, as interpolated into the
missing-parameters message. -/
def pyListRepr (l : List String) : String :=
  "[" ++ String.intercalate ", " (l.map (fun s => "\x27" ++ s ++ "\x27")) ++ "]"

/-- The required keys absent from the relation data
(`missing_required_parameters`). -/
def s3MissingParameters (info : S3ConnInfo) : List String :=
  (([("bucket", info.bucket), ("access-key", info.accessKey),
    ("secret-key", info.secretKey)] : List (String × Option String)).filter
      (fun kv => kv.2 = none)).map Prod.fst

/-- `MAASBackups._retrieve_s3_parameters`: report the missing required
keys, or apply defaults, strip surrounding whitespace, and normalize
slashes on endpoint, path and bucket. -/
def retrieve_s3_parameters (info : S3ConnInfo) : Option S3Params × List String :=
  if s3MissingParameters info ≠ [] then
    (none, s3MissingParameters info)
  else
    let p : S3Params :=
      { bucket := pyStripWs (info.bucket.getD "")
        accessKey := pyStripWs (info.accessKey.getD "")
        secretKey := pyStripWs (info.secretKey.getD "")
        endpoint := pyStripWs (info.endpoint.getD "https://s3.amazonaws.com")
        region := pyStripWs (info.region.getD "")
        path := pyStripWs (info.path.getD "")
        s3UriStyle := pyStripWs (info.s3UriStyle.getD "host")
        deleteOlderThanDays := pyStripWs (info.deleteOlderThanDays.getD "9999999") }
    let p := { p with
      endpoint := pyRstrip "/" p.endpoint
      path := "/" ++ pyStrip "/" p.path
      bucket := pyStrip "/" p.bucket }
    (some p, [])

/-! ## Gate-keeper checks -/

/-- The charm-side facts the gate checks read, plus the repository
marker data that only the spec-modelled compatibility check consults. -/
structure BackupsEnv where
  isLeader : Bool
  isBlocked : Bool
  hasS3Relation : Bool
  s3ConnInfo : S3ConnInfo
  hasMaasDbRelation : Bool
  appName : String
  dbAppName : String
  repositoryMarkerContent : Option String
  localModelUuid : String
deriving DecidableEq

/-- `MAASBackups._are_backup_settings_ok`. -/
def are_backup_settings_ok (env : BackupsEnv) : Bool × String :=
  if ¬env.hasS3Relation then
    (false, "Relation with s3-integrator charm missing, cannot create/restore backup.")
  else if (retrieve_s3_parameters env.s3ConnInfo).2 ≠ [] then
    (false, "Missing S3 parameters: " ++ pyListRepr (retrieve_s3_parameters env.s3ConnInfo).2)
  else
    (true, "")

/-- `MAASBackups._can_unit_perform_backup`. -/
def can_unit_perform_backup (env : BackupsEnv) : Bool × String :=
  if ¬env.isLeader then
    (false, "Unit is not the leader")
  else if env.isBlocked then
    (false, "Unit is in a blocking state")
  else
    are_backup_settings_ok env

/-- Modelled from the spec: the repository-compatibility check
(`_can_use_s3_repository`) is missing from the source tree (the unit
tests patch and exercise it, and `MODEL_UUID_FILENAME` is defined but
never read).  Per the spec it reads the `RepositoryMarker` object
`model-uuid.txt`; if present and different from the local cluster
identity it fails, and if absent the repository is compatible (first
use).  The failure message is the one the unit tests expect. -/
def can_use_s3_repository (env : BackupsEnv) : Bool × String :=
  match env.repositoryMarkerContent with
  | none => (true, "")
  | some marker =>
    if marker = env.localModelUuid then (true, "")
    else (false, "the S3 repository has backups from another cluster")

/-- The action parameters of `restore-backup` (`event.params.get`). -/
structure RestoreParams where
  backupId : Option String := none
  controllerId : Option String := none
deriving DecidableEq

/-- `MAASBackups._pre_restore_checks`. -/
def pre_restore_checks (env : BackupsEnv) (params : RestoreParams) (ev : Event) :
    Bool × Event :=
  let (settingsOk, validationMessage) := are_backup_settings_ok env
  if ¬settingsOk then
    (false, log_error ev validationMessage none (some "Restore failed"))
  else if params.backupId.getD "" = "" then
    (false, log_error ev
      "The \x27backup-id\x27 parameter must be specified to perform a restore"
      none (some "Restore failed"))
  else if params.controllerId.getD "" = "" then
    (false, log_error ev
      "The \x27controller-id\x27 parameter must be specified to perform a restore"
      none (some "Restore failed"))
  else if env.isBlocked then
    (false, log_error ev "Cluster or unit is in a blocking state" none (some "Restore failed"))
  else if env.hasMaasDbRelation then
    (false, log_error ev
      ("PostgreSQL relation still exists, please run:\njuju remove-relation "
        ++ env.appName ++ " " ++ env.dbAppName ++ "\nthen retry this action")
      none (some "Restore failed"))
  else
    (true, ev)

/-! ## Object-store layout constants -/

/-- Source constant `METADATA_FILENAME`. -/
def METADATA_FILENAME : String := "backup_metadata.json"

/-- Source constant `CONTROLLER_LIST_FILENAME`. -/
def CONTROLLER_LIST_FILENAME : String := "controllers.txt"

/-- Source constant `IMAGE_TAR_FILENAME`. -/
def IMAGE_TAR_FILENAME : String := "image-storage.tar.gz"

/-- Source constant `PRESEED_TAR_FILENAME`. -/
def PRESEED_TAR_FILENAME : String := "preseeds.tar.gz"

/-- Source constant `MODEL_UUID_FILENAME` (defined in the source and never
read by it). -/
def MODEL_UUID_FILENAME : String := "model-uuid.txt"

/-- Source constant `METADATA_PATH`. -/
def METADATA_PATH : String := "backup/latest"

/-- Source constant `REFER_TO_DEBUG_LOG`. -/
def REFER_TO_DEBUG_LOG : String := " Please check the juju debug-log for more details."

/-! ## Catalog / listing (`_list_backups`, `_get_backup_details`) -/

/-- The S3 responses the catalog functions consume: the delimiter listing
of `<path>/backup/` (its `CommonPrefixes`), the per-prefix `Contents`
pages (full key and size), the bodies served by `_read_content_from_s3`
(`none` models a missing object or a swallowed read error), and an
optional exception raised by the paginator calls. -/
structure CatalogWorld where
  listingError : Option PyExc := none
  commonPrefixes : List String := []
  objectsUnder : String → List (String × Nat) := fun _ => []
  readContent : String → Option S3Text := fun _ => none

/-- The object-key prefix of one backup,
`f"{s3_parameters['path'].lstrip('/')}/backup/{backup_id}/"`. -/
def backupKeyDir (p : S3Params) (backupId : String) : String :=
  pyLstrip "/" p.path ++ "/backup/" ++ backupId ++ "/"

/-- The `Contents` of one backup listing, with keys relativized by
`key.removeprefix(prefix)` as in the source. -/
def backupContents (w : CatalogWorld) (p : S3Params) (backupId : String) :
    List (String × Nat) :=
  (w.objectsUnder (backupKeyDir p backupId)).map
    (fun kv => (pyRemoveLeading (backupKeyDir p backupId) kv.1, kv.2))

/-- The artifact set a complete backup must contain. -/
def expectedBackupFiles : List String :=
  [METADATA_FILENAME, CONTROLLER_LIST_FILENAME, IMAGE_TAR_FILENAME, PRESEED_TAR_FILENAME]

/-- The metadata body of one backup as `_read_content_from_s3` returns it. -/
def backupMetadataRead (w : CatalogWorld) (backupId : String) : Option S3Text :=
  w.readContent ("backup/" ++ backupId ++ "/" ++ METADATA_FILENAME)

/-- The parse step of `_get_backup_details` over the metadata body:
absent or empty content leaves the dict empty, decode errors propagate. -/
def backupMetadataDoc (w : CatalogWorld) (backupId : String) :
    Except PyExc (Option JsonDoc) :=
  match backupMetadataRead w backupId with
  | none => Except.ok none
  | some body =>
    if s3TextEmpty body then Except.ok none
    else (pyJsonLoads body).map some

/-- The aggregate byte total of one backup listing (`total_size`). -/
def backupTotalSize (w : CatalogWorld) (p : S3Params) (backupId : String) : Nat :=
  ((backupContents w p backupId).map Prod.snd).sum

/-- `as_size`: the source computes `math.floor(math.log(size, 1024))`
first, so a zero byte total raises `ValueError` (logarithm of zero);
for a positive total the call returns the rendered size string, which
this model represents by the byte count itself (the floating-point
formatting is not modeled further). -/
def as_size (size : Nat) : Except PyExc Nat :=
  if size = 0 then Except.error PyExc.valueError
  else Except.ok size

/-- The derived, read-only view of one backup.  `sizeBytes` is the
`as_size` rendering of the aggregate size, represented by the byte
count (see `as_size`). -/
structure BackupDetails where
  id : String
  sizeBytes : Nat
  controllerIds : List String
  completed : Bool
  maasVersion : String
deriving DecidableEq

/-- `MAASBackups._get_backup_details`. -/
def get_backup_details (w : CatalogWorld) (p : S3Params) (backupId : String) :
    Except PyExc BackupDetails :=
  match w.listingError with
  | some e => Except.error e
  | none =>
    let contents := backupContents w p backupId
    match as_size (backupTotalSize w p backupId) with
    | Except.error e => Except.error e
    | Except.ok size =>
      let completeFiles := sameSet (contents.map Prod.fst) expectedBackupFiles
      match backupMetadataDoc w backupId with
      | Except.error e => Except.error e
      | Except.ok metadata =>
        let controllerIds :=
          match w.readContent ("backup/" ++ backupId ++ "/" ++ CONTROLLER_LIST_FILENAME) with
          | some (S3Text.plain s) => if s = "" then [] else pySplit '\n' (pyStrip "\n" s)
          | _ => []
        let success :=
          match metadata with
          | some (JsonDoc.obj _ s) => s.getD false
          | _ => false
        let maasVersion :=
          match metadata with
          | some (JsonDoc.obj v _) => v.getD ""
          | _ => ""
        Except.ok
          { id := backupId
            sizeBytes := size
            controllerIds := controllerIds
            completed := success && completeFiles
            maasVersion := maasVersion }

/-- The identity extraction of `_list_backups`:
`common_prefix["Prefix"].lstrip(f"{path.lstrip('/')}/backup/").rstrip("/")`
(note: `str.lstrip` removes a leading character *set*). -/
def listBackupIds (path : String) (commonPrefixes : List String) : List String :=
  commonPrefixes.map (fun cp => pyRstrip "/" (pyLstrip (pyLstrip "/" path ++ "/backup/") cp))

/-- Details for each extracted identity, failing on the first raised
exception as the Python loop would. -/
def backupDetailsList (w : CatalogWorld) (p : S3Params) :
    List String → Except PyExc (List BackupDetails)
  | [] => Except.ok []
  | id :: ids =>
    match get_backup_details w p id with
    | Except.error e => Except.error e
    | Except.ok d => (backupDetailsList w p ids).map (fun rest => d :: rest)

/-- `MAASBackups._list_backups`. -/
def list_backups (w : CatalogWorld) (p : S3Params) : Except PyExc (List BackupDetails) :=
  match w.listingError with
  | some e => Except.error e
  | none => backupDetailsList w p (listBackupIds p.path w.commonPrefixes)

/-- One row of the `list-backups` table (`sizeBytes` as in
`BackupDetails.sizeBytes`, see `as_size`). -/
structure BackupRow where
  backupId : String
  action : String
  status : String
  maasVersion : String
  sizeBytes : Nat
  controllers : String
  path : String
deriving DecidableEq

/-- The row list built by `_generate_backup_list_output` before
formatting: one row per catalog entry, stably sorted ascending by the
backup identity (`backup_list.sort(key=lambda x: x[0])`). -/
def generate_backup_rows (w : CatalogWorld) (p : S3Params) :
    Except PyExc (List BackupRow) :=
  (list_backups w p).map (fun backups =>
    sortByKey (fun r => r.backupId) (backups.map (fun b =>
      { backupId := b.id
        action := "full backup"
        status := if b.completed then "finished" else "failed"
        maasVersion := b.maasVersion
        sizeBytes := b.sizeBytes
        controllers := String.intercalate ", " b.controllerIds
        path := "/" ++ pyLstrip "/" p.path ++ "/backup/" ++ b.id })))

/-- Left-justified column padding (`f"{x:<n}"`). -/
def padColumn (width : Nat) (s : String) : String :=
  s ++ String.mk (List.replicate (width - s.length) ' ')

/-- `MAASBackups._format_backup_list` on the row list. -/
def format_backup_list (rows : List BackupRow) (bucket path : String) : String :=
  let header := padColumn 20 "backup-id" ++ " | " ++ padColumn 11 "action" ++ " | "
    ++ padColumn 8 "status" ++ " | " ++ padColumn 8 "maas" ++ " | "
    ++ padColumn 10 "size" ++ " | " ++ padColumn 22 "controllers" ++ " | backup-path"
  let lines := ["Storage bucket name: " ++ bucket,
    "Backups base path: " ++ path ++ "/backup/\n", header,
    String.mk (List.replicate header.length '-')]
  let rowLines := rows.map (fun r =>
    padColumn 20 r.backupId ++ " | " ++ padColumn 11 r.action ++ " | "
      ++ padColumn 8 r.status ++ " | " ++ padColumn 8 r.maasVersion ++ " | "
      ++ padColumn 10 (toString r.sizeBytes ++ "B") ++ " | "
      ++ padColumn 22 r.controllers ++ " | " ++ r.path)
  String.intercalate "\n" (lines ++ rowLines)

/-- `MAASBackups._generate_backup_list_output` (an empty parameter dict
would raise `KeyError` at the subscript accesses). -/
def generate_backup_list_output (w : CatalogWorld) (info : S3ConnInfo) :
    Except PyExc String :=
  match (retrieve_s3_parameters info).fst with
  | none => Except.error PyExc.keyError
  | some p =>
    (generate_backup_rows w p).map (fun rows => format_backup_list rows p.bucket p.path)

/-- `MAASBackups._on_list_backups_action`: only `BotoCoreError` is
caught; any other exception escapes the handler (`Except.error`). -/
def on_list_backups_action (env : BackupsEnv) (w : CatalogWorld) :
    Except PyExc Event :=
  let ev : Event := {}
  let (settingsOk, validationMessage) := are_backup_settings_ok env
  if ¬settingsOk then Except.ok (eventFail ev validationMessage)
  else
    match generate_backup_list_output w env.s3ConnInfo with
    | Except.ok formattedList => Except.ok (eventSetResults ev [("backups", formattedList)])
    | Except.error PyExc.botoCoreError =>
      Except.ok (eventFail ev "Failed to list MAAS backups with error: BotoCoreError")
    | Except.error e => Except.error e

/-! ## Backup identities (`_generate_backup_id`, `BACKUP_ID_FORMAT`) -/

/-- A naive Python `datetime` value at second precision. -/
structure PyDateTime where
  year : Nat
  month : Nat
  day : Nat
  hour : Nat
  minute : Nat
  second : Nat
deriving DecidableEq

/-- Zero-padded decimal rendering (`%Y`, `%m`, ... of `strftime`). -/
def natPad (width n : Nat) : String :=
  let s := toString n
  String.mk (List.replicate (width - s.length) '0') ++ s

/-- `datetime.strftime(t, BACKUP_ID_FORMAT)` with
`BACKUP_ID_FORMAT = "%Y-%m-%dT%H:%M:%SZ"` (the trailing `Z` is a literal). -/
def strftimeBackupIdFormat (t : PyDateTime) : String :=
  natPad 4 t.year ++ "-" ++ natPad 2 t.month ++ "-" ++ natPad 2 t.day ++ "T"
    ++ natPad 2 t.hour ++ ":" ++ natPad 2 t.minute ++ ":" ++ natPad 2 t.second ++ "Z"

/-- The host clock: `datetime.now()` returns the naive local wall-clock
time, which coincides with `utcNow` only when the host timezone is UTC. -/
structure Clock where
  utcNow : PyDateTime
  localNow : PyDateTime
deriving DecidableEq

/-- `MAASBackups._generate_backup_id`: `datetime.strftime(datetime.now(), BACKUP_ID_FORMAT)`. -/
def generate_backup_id (clock : Clock) : String :=
  strftimeBackupIdFormat clock.localNow

/-! ## Backup orchestrator (`_on_create_backup_action`, `_run_backup`) -/

/-- The exceptions `_backup_maas_to_s3` can raise:
`RegionsNotAvailableError` from the region enumeration, or any exception
out of an S3 upload call (all callers catch them uniformly). -/
inductive BackupStepError where
  | regionsNotAvailable
  | uploadFailed
deriving DecidableEq

/-- Outcomes of the external calls the backup path performs. -/
structure BackupWorld where
  env : BackupsEnv
  clock : Clock
  probeUploadOk : Bool
  regionsResult : Except Unit (List String)
  uploadControllerListOk : Bool
  uploadImagesOk : Bool
  uploadPreseedsOk : Bool
  metadataUploadOk : Bool
  installedVersion : Option String

/-- A `backup_metadata.json` object written to the repository. -/
structure StoredBackupMetadata where
  path : String
  success : Bool
  maasSnapVersion : Option String
deriving DecidableEq

/-- `MAASBackups._backup_maas_to_s3`: enumerate regions, then upload
controller list, image archive and preseed archive in order, raising on
the first failure (the event log survives the raise in Python, so the
error carries it). -/
def backup_maas_to_s3 (w : BackupWorld) (ev : Event) :
    Except (BackupStepError × Event) Event :=
  let ev := eventLog ev "Retrieving region ids from MAAS..."
  match w.regionsResult with
  | Except.error _ => Except.error (BackupStepError.regionsNotAvailable, ev)
  | Except.ok _regions =>
    let ev := eventLog ev "Uploading region ids to S3..."
    if ¬w.uploadControllerListOk then Except.error (BackupStepError.uploadFailed, ev)
    else
      let ev := eventLog ev "Creating image archive for S3 backup..."
      let ev := eventLog ev "Uploading image archive to S3, see debug-log for progress..."
      if ¬w.uploadImagesOk then Except.error (BackupStepError.uploadFailed, ev)
      else
        let ev := eventLog ev "Creating preseed archive for S3 backup..."
        let ev := eventLog ev "Uploading preseed archive to S3..."
        if ¬w.uploadPreseedsOk then Except.error (BackupStepError.uploadFailed, ev)
        else Except.ok ev

/-- `MAASBackups._execute_backup_to_s3`: catch every exception of the
archive/upload phase and convert it into an `event.fail` plus `False`. -/
def execute_backup_to_s3 (w : BackupWorld) (p : S3Params) (s3Path : String)
    (ev : Event) : Bool × Event :=
  match backup_maas_to_s3 w ev with
  | Except.ok ev => (true, ev)
  | Except.error (_, ev) =>
    (false, eventFail ev ("Failed to backup to S3 bucket=" ++ p.bucket ++ ", path="
      ++ s3Path ++ "." ++ REFER_TO_DEBUG_LOG))

/-- `MAASBackups._upload_backup_metadata`: build the metadata record,
force its `success` field, and upload it; any exception yields `False`
and nothing is written. -/
def upload_backup_metadata (w : BackupWorld) (s3Path : String) (success : Bool) :
    Bool × List StoredBackupMetadata :=
  if w.metadataUploadOk then
    (true, [{ path := osPathJoin s3Path METADATA_FILENAME
              success := success
              maasSnapVersion := w.installedVersion }])
  else (false, [])

/-- `MAASBackups._run_backup`. -/
def run_backup (w : BackupWorld) (p : S3Params) (ev : Event) :
    Event × List StoredBackupMetadata :=
  let backupId := generate_backup_id w.clock
  let s3Path := pyLstrip "/" (osPathJoin p.path ("backup/" ++ backupId))
  let r := execute_backup_to_s3 w p s3Path ev
  let backupSuccess := r.1
  let ev := eventLog r.2 "Uploading backup metadata to S3..."
  let m := upload_backup_metadata w s3Path backupSuccess
  let written := m.2
  if ¬m.1 then
    (eventFail ev ("Failed to upload backup metadata to S3 for backup-id " ++ backupId
      ++ "." ++ REFER_TO_DEBUG_LOG), written)
  else if backupSuccess then
    (eventSetResults (eventLog ev ("Backup succeeded with backup-id " ++ backupId))
      [("backups", "backup created with id " ++ backupId)], written)
  else
    (eventFail ev ("Failed to archive and upload MAAS files to S3." ++ REFER_TO_DEBUG_LOG),
      written)

/-- `MAASBackups._on_create_backup_action`: eligibility gate, credential
probe upload of `backup/latest`, then `_run_backup`.  Subscripting an
empty parameter dict would raise `KeyError`, hence the `Except`. -/
def on_create_backup_action (w : BackupWorld) :
    Except PyExc (Event × List StoredBackupMetadata) :=
  let ev : Event := {}
  let gate := can_unit_perform_backup w.env
  if ¬gate.1 then
    Except.ok (eventFail (log_error ev gate.2 none (some "Backup failed")) gate.2, [])
  else
    match (retrieve_s3_parameters w.env.s3ConnInfo).fst with
    | none => Except.error PyExc.keyError
    | some p =>
      if ¬w.probeUploadOk then
        Except.ok
          (eventFail ev ("Failed to upload metadata to provided S3." ++ REFER_TO_DEBUG_LOG), [])
      else Except.ok (run_backup w p ev)

/-! ## Restore orchestrator -/

/-- Outcomes of the external calls the restore path performs, plus the
current content of the local controller-identity file
(`/var/snap/maas/common/maas/maas_id`). -/
structure RestoreWorld where
  env : BackupsEnv
  params : RestoreParams
  listBackupsResult : Except PyExc (List String)
  metadataDownload : Option S3Text
  controllersDownload : Option String
  installedVersion : Option String
  peerRelationExists : Bool
  remoteUnits : List String
  localUnit : String
  preseedRestoreOk : Bool
  imageRestoreOk : Bool
  controllerIdFile : String

/-- The tuple unpacking `v.split("/", 1)[0].split(".", 2)` into exactly
three components; fewer raises `ValueError`. -/
def parse_version_components (v : String) : Except PyExc (String × String × String) :=
  match pySplitMax '.' 2 ((pySplitMax '/' 1 v).headD "") with
  | [a, b, c] => Except.ok (a, b, c)
  | _ => Except.error PyExc.valueError

/-- `MAASBackups._check_backup_maas_version`: graceful `False` on a
missing download, missing recorded version or missing local version;
`json.loads` and the component unpacking are outside any handler and
raise; component comparisons are Python string comparisons. -/
def check_backup_maas_version (w : RestoreWorld) (ev : Event) :
    Except PyExc (Bool × Event) :=
  let ev := eventLog ev "Downloading metadata from s3..."
  match w.metadataDownload with
  | none =>
    Except.ok (false, log_error ev "Could not read metadata from s3" none (some "Restore failed"))
  | some body =>
    match pyJsonLoads body with
    | Except.error e => Except.error e
    | Except.ok metaDict =>
      let backup :=
        match metaDict with
        | JsonDoc.obj v _ => v.getD ""
        | JsonDoc.malformed => ""
      if backup = "" then
        Except.ok (false, log_error ev "Could not locate snap version in backup" none
          (some "Restore failed"))
      else
        let installed := w.installedVersion.getD ""
        if installed = "" then
          Except.ok (false, log_error ev "Could not locate snap version on running MAAS instance"
            none (some "Restore failed"))
        else
          match parse_version_components installed with
          | Except.error e => Except.error e
          | Except.ok (installedMajor, installedMinor, installedPoint) =>
            match parse_version_components backup with
            | Except.error e => Except.error e
            | Except.ok (backupMajor, backupMinor, backupPoint) =>
              if installedMajor ≠ backupMajor then
                Except.ok (false, log_error ev
                  "MAAS major version does not match backup major version" none
                  (some "Restore failed"))
              else if installedMinor ≠ backupMinor then
                Except.ok (false, log_error ev
                  "MAAS minor version does not match backup minor version" none
                  (some "Restore failed"))
              else if pyStrLt installedPoint backupPoint then
                Except.ok (false, log_error ev
                  "MAAS point version is not greater or equal to backup point version" none
                  (some "Restore failed"))
              else Except.ok (true, ev)

/-- The controller list recovered from the downloaded object:
`controllers_content.strip("\n").split("\n")`. -/
def downloadedControllers (content : String) : List String :=
  pySplit '\n' (pyStrip "\n" content)

/-- The peer-unit count seen by `_update_controller_id`:
`relation.units` joined with the local unit (a set union, so the local
unit is counted once). -/
def regionUnitCount (w : RestoreWorld) : Nat :=
  ((w.localUnit :: w.remoteUnits).dedup).length

/-- `MAASBackups._update_controller_id`: download the controller list,
require the peer relation, require matching cardinality, require
membership of the requested id, and only then overwrite the
controller-identity file with the id plus a trailing newline.  Returns
(success, event, file content). -/
def update_controller_id (w : RestoreWorld) (controllerId : String) (ev : Event)
    (file : String) : Bool × Event × String :=
  let ev := eventLog ev "Downloading controllers list from s3..."
  match w.controllersDownload with
  | none =>
    (false, log_error ev "Could not read controllers list from s3" none (some "Restore failed"),
      file)
  | some content =>
    let controllers := downloadedControllers content
    if ¬w.peerRelationExists then
      (false, log_error ev "Could not fetch MAAS regions list" none (some "Restore failed"), file)
    else if controllers.length ≠ regionUnitCount w then
      (false, log_error ev
        ("Restore failed: The number of maas-region units (" ++ toString (regionUnitCount w)
          ++ ") does not match the expected value from the backup ("
          ++ toString controllers.length ++ ").")
        none (some "Restore failed"), file)
    else if controllerId ∈ controllers then
      (true, ev, controllerId ++ "\n")
    else
      (false, log_error ev
        (controllerId ++ " is not a valid ID from the controllers list; should be one of "
          ++ String.intercalate ", " controllers ++ "!")
        none (some "Restore failed"), file)

/-- `MAASBackups._run_restore`: version gate, controller-identity
reassignment, preseed restore, image restore, each failure aborting the
remaining steps with an `event.fail`. -/
def run_restore (w : RestoreWorld) (controllerId : String) (ev : Event) (file : String) :
    Except PyExc (Event × String) :=
  match check_backup_maas_version w ev with
  | Except.error e => Except.error e
  | Except.ok (versionOk, ev) =>
    if ¬versionOk then
      Except.ok (eventFail ev
        "Failed to validate MAAS version from S3 backup. Check the juju debug-log for more detail.",
        file)
    else
      let u := update_controller_id w controllerId ev file
      let ev := u.2.1
      let file := u.2.2
      if ¬u.1 then
        Except.ok (eventFail ev
          "Failed to update maas-region IDs from S3 backup. Check the juju debug-log for more detail.",
          file)
      else if ¬w.preseedRestoreOk then
        Except.ok (eventFail ev
          "Failed to download and extract preseeds from S3 backup. Check the juju debug-log for more detail.",
          file)
      else if ¬w.imageRestoreOk then
        Except.ok (eventFail ev
          "Failed to download and extract images from S3 backup. Check the juju debug-log for more detail.",
          file)
      else Except.ok (ev, file)

/-- `MAASBackups._on_restore_backup_action`: pre-restore checks,
backup-id validation against the catalog (catching only
`BotoCoreError`), then `_run_restore` — whose per-step failures do not
stop the handler from reporting `restore finished`, because
`_run_restore` returns `None` either way. -/
def on_restore_backup_action (w : RestoreWorld) : Except PyExc (Event × String) :=
  let ev : Event := {}
  let file := w.controllerIdFile
  let pre := pre_restore_checks w.env w.params ev
  if ¬pre.1 then Except.ok (pre.2, file)
  else
    let ev := pre.2
    let backupId := w.params.backupId.getD ""
    let controllerId := w.params.controllerId.getD ""
    match w.listBackupsResult with
    | Except.error PyExc.botoCoreError =>
      Except.ok (eventFail ev "Failed to retrieve backups list", file)
    | Except.error e => Except.error e
    | Except.ok backups =>
      if backupId ≠ "" ∧ backupId ∉ backups then
        Except.ok (eventFail ev ("Invalid backup-id: " ++ backupId), file)
      else
        match run_restore w controllerId ev file with
        | Except.error e => Except.error e
        | Except.ok (ev, file) =>
          let ev := eventLog ev "Region restore complete"
          Except.ok (eventSetResults ev [("restore-status", "restore finished")], file)

-- Decidable equality for `Except` results, used to evaluate the
-- embedded functions on concrete inputs.
deriving instance DecidableEq for Except

/-! ## Shared concrete instances -/

/-- A complete s3-integrator relation payload. -/
def infoOk : S3ConnInfo :=
  { bucket := some "maas-bucket", accessKey := some "ak", secretKey := some "sk",
    path := some "/test-path" }

/-- A healthy leader environment with complete S3 settings and no
database relation. -/
def envOk : BackupsEnv :=
  { isLeader := true, isBlocked := false, hasS3Relation := true,
    s3ConnInfo := infoOk, hasMaasDbRelation := false,
    appName := "maas-region", dbAppName := "postgresql",
    repositoryMarkerContent := none, localModelUuid := "123-456" }

/-- The normalized parameters `retrieve_s3_parameters infoOk` yields. -/
def paramsOk : S3Params :=
  { bucket := "maas-bucket", accessKey := "ak", secretKey := "sk",
    endpoint := "https://s3.amazonaws.com", region := "", path := "/test-path",
    s3UriStyle := "host", deleteOlderThanDays := "9999999" }

example : (retrieve_s3_parameters infoOk).fst = some paramsOk := by decide

/-! ## Claim C1 -/

/-- `envOk` with a repository marker recorded by a different cluster. -/
def envForeignMarker : BackupsEnv :=
  { envOk with repositoryMarkerContent := some "456-789" }

/-- Restore parameters supplying both required ids. -/
def restoreParamsOk : RestoreParams :=
  { backupId := some "2025-09-01T00:00:00Z", controllerId := some "abc123" }

/-- Claim C1: the spec says a repository-compatibility check on the
`model-uuid.txt` marker gates every mutating operation, but the source
performs no such check anywhere: in an environment whose repository
marker belongs to a foreign cluster (the spec-modelled check rejects
it), the create-backup eligibility gate still answers yes and the
pre-restore checks still pass. -/
theorem C1_gates_ignore_repository_marker :
    can_use_s3_repository envForeignMarker
      = (false, "the S3 repository has backups from another cluster")
    ∧ can_unit_perform_backup envForeignMarker = (true, "")
    ∧ (pre_restore_checks envForeignMarker restoreParamsOk {}).1 = true := by
  decide

/-! ## Claim C2 -/

/-- A restore invocation whose every precondition passes but whose
version-compatibility step fails gracefully (the backup metadata
records no version). -/
def c2World : RestoreWorld :=
  { env := envOk, params := restoreParamsOk,
    listBackupsResult := Except.ok ["2025-09-01T00:00:00Z"],
    metadataDownload := some (S3Text.jsonObj (JsonDoc.obj none none)),
    controllersDownload := none, installedVersion := some "3.6.1",
    peerRelationExists := true, remoteUnits := [], localUnit := "maas-region/0",
    preseedRestoreOk := true, imageRestoreOk := true,
    controllerIdFile := "old-controller\n" }

/-- Claim C2: the handler reports `restore finished` on success and only
on success.  Refuted: on `c2World` the version check fails and the
handler records failures, yet it still sets
`{"restore-status": "restore finished"}`, because `_run_restore` returns
`None` on both paths and the caller never checks. -/
theorem C2_restore_finished_reported_despite_failure :
    (on_restore_backup_action c2World).map
        (fun r => (r.1.results, r.1.failures.isEmpty))
      = Except.ok ([("restore-status", "restore finished")], false) := by
  decide

/-! ## Claim C7 -/

/-- `infoOk` with the configured path `v2`. -/
def infoV2 : S3ConnInfo := { infoOk with path := some "/v2" }

/-- `envOk` over the `v2` path. -/
def envV2 : BackupsEnv := { envOk with s3ConnInfo := infoV2 }

/-- A repository holding one complete, successful backup under
`v2/backup/2025-09-01T00:00:00Z/`. -/
def c7World : CatalogWorld :=
  { commonPrefixes := ["v2/backup/2025-09-01T00:00:00Z/"],
    objectsUnder := fun pfx =>
      if pfx = "v2/backup/2025-09-01T00:00:00Z/" then
        [("v2/backup/2025-09-01T00:00:00Z/" ++ METADATA_FILENAME, 1024),
         ("v2/backup/2025-09-01T00:00:00Z/" ++ CONTROLLER_LIST_FILENAME, 10),
         ("v2/backup/2025-09-01T00:00:00Z/" ++ IMAGE_TAR_FILENAME, 4096),
         ("v2/backup/2025-09-01T00:00:00Z/" ++ PRESEED_TAR_FILENAME, 2048)]
      else [],
    readContent := fun path =>
      if path = "backup/2025-09-01T00:00:00Z/" ++ METADATA_FILENAME then
        some (S3Text.jsonObj (JsonDoc.obj (some "3.6.1") (some true)))
      else if path = "backup/2025-09-01T00:00:00Z/" ++ CONTROLLER_LIST_FILENAME then
        some (S3Text.plain "abc123\n")
      else none }

/-- Claim C7: the backup-id column should equal the stored identity.
Refuted: with path `v2` the extraction
`prefix.lstrip("v2/backup/")` strips any leading characters from that
character set, so the stored identity `2025-09-01T00:00:00Z` loses its
leading `2` and the pipeline continues with the phantom identity
`025-09-01T00:00:00Z` (contrast `removeprefix`, used by
`_get_backup_details` for the same purpose); `_get_backup_details` for
that phantom prefix then finds zero objects and `as_size(0)` raises an
uncaught `ValueError`, so `list-backups` crashes before producing any
row at all. -/
theorem C7_listing_crashes_on_mangled_identity :
    listBackupIds "/v2" c7World.commonPrefixes = ["025-09-01T00:00:00Z"]
    ∧ "025-09-01T00:00:00Z" ≠ "2025-09-01T00:00:00Z"
    ∧ on_list_backups_action envV2 c7World = Except.error PyExc.valueError := by
  decide

/-! ## Claim C9 -/

/-- A host clock two hours east of UTC. -/
def c9Clock : Clock :=
  { utcNow := { year := 2025, month := 1, day := 1, hour := 0, minute := 0, second := 0 },
    localNow := { year := 2025, month := 1, day := 1, hour := 2, minute := 0, second := 0 } }

/-- Claim C9: the backup identity should be the UTC timestamp in
`YYYY-MM-DDTHH:MM:SSZ`.  Refuted on any non-UTC host:
`_generate_backup_id` formats `datetime.now()` — the naive local
wall-clock time — yet suffixes the literal `Z`, so at UTC midnight on a
UTC+02:00 host the identity is `2025-01-01T02:00:00Z`, not the UTC
timestamp `2025-01-01T00:00:00Z`. -/
theorem C9_backup_id_local_time_bug :
    generate_backup_id c9Clock = "2025-01-01T02:00:00Z"
    ∧ strftimeBackupIdFormat c9Clock.utcNow = "2025-01-01T00:00:00Z"
    ∧ generate_backup_id c9Clock ≠ strftimeBackupIdFormat c9Clock.utcNow := by
  decide

/-! ## Claim C4 -/

/-- A backup whose prefix holds the four expected artifacts plus one
extra object, with `success=true` metadata. -/
def c4World : CatalogWorld :=
  { objectsUnder := fun _ =>
      [("test-path/backup/2025-09-01T00:00:00Z/backup_metadata.json", 1024),
       ("test-path/backup/2025-09-01T00:00:00Z/controllers.txt", 10),
       ("test-path/backup/2025-09-01T00:00:00Z/image-storage.tar.gz", 4096),
       ("test-path/backup/2025-09-01T00:00:00Z/preseeds.tar.gz", 2048),
       ("test-path/backup/2025-09-01T00:00:00Z/extra.txt", 1)],
    readContent := fun path =>
      if path = "backup/2025-09-01T00:00:00Z/" ++ METADATA_FILENAME then
        some (S3Text.jsonObj (JsonDoc.obj (some "3.6.1") (some true)))
      else if path = "backup/2025-09-01T00:00:00Z/" ++ CONTROLLER_LIST_FILENAME then
        some (S3Text.plain "abc123\ndef456\n")
      else none }

/-- Claim C4 counterexample: the claim's condition (b) — the full
expected artifact set is present — holds (all four expected objects are
under the prefix) and the metadata reports `success=true`, yet the
catalog reports `completed=false`, because the source requires the set
of objects to be *exactly* the expected four and an extra object breaks
the set equality. -/
theorem C4_extra_object_counterexample :
    (get_backup_details c4World paramsOk "2025-09-01T00:00:00Z").map
        (fun d => d.completed) = Except.ok false
    ∧ expectedBackupFiles.all
        (fun f => f ∈ (backupContents c4World paramsOk "2025-09-01T00:00:00Z").map Prod.fst)
      = true
    ∧ backupMetadataDoc c4World "2025-09-01T00:00:00Z"
      = Except.ok (some (JsonDoc.obj (some "3.6.1") (some true))) := by
  decide

/-- Claim C4 (amended): a backup is reported completed exactly when its
metadata object parses with `success=true` and the set of objects under
its prefix is *exactly* the four expected artifacts (a superset also
fails the check). -/
theorem C4_completed_iff_success_and_exact_artifact_set
    (w : CatalogWorld) (p : S3Params) (backupId : String) (d : BackupDetails)
    (h : get_backup_details w p backupId = Except.ok d) :
    d.completed = true ↔
      ((∃ v, backupMetadataDoc w backupId = Except.ok (some (JsonDoc.obj v (some true))))
        ∧ sameSet ((backupContents w p backupId).map Prod.fst) expectedBackupFiles = true) := by
  unfold get_backup_details at h
  cases hle : w.listingError with
  | some e => rw [hle] at h; cases h
  | none =>
    rw [hle] at h
    cases hsa : as_size (backupTotalSize w p backupId) with
    | error e => rw [hsa] at h; cases h
    | ok size =>
      rw [hsa] at h
      cases hmd : backupMetadataDoc w backupId with
      | error e => rw [hmd] at h; cases h
      | ok metadata =>
        rw [hmd] at h
        cases h
        cases metadata with
        | none => simp
        | some doc =>
          cases doc with
          | malformed => simp
          | obj v s =>
            cases s with
            | none => simp
            | some b =>
              cases b with
              | true => simp
              | false => simp

/-- The same backup with exactly the four expected artifacts. -/
def c4GoodWorld : CatalogWorld :=
  { c4World with objectsUnder := fun _ =>
      [("test-path/backup/2025-09-01T00:00:00Z/backup_metadata.json", 1024),
       ("test-path/backup/2025-09-01T00:00:00Z/controllers.txt", 10),
       ("test-path/backup/2025-09-01T00:00:00Z/image-storage.tar.gz", 4096),
       ("test-path/backup/2025-09-01T00:00:00Z/preseeds.tar.gz", 2048)] }

/-- The catalog record computed for `c4GoodWorld`. -/
def c4GoodDetails : BackupDetails :=
  { id := "2025-09-01T00:00:00Z", sizeBytes := 7178,
    controllerIds := ["abc123", "def456"], completed := true, maasVersion := "3.6.1" }

/-- Witness for the amended C4 theorem at a concrete complete backup. -/
theorem C4_completed_iff_success_and_exact_artifact_set_witness :
    get_backup_details c4GoodWorld paramsOk "2025-09-01T00:00:00Z" = Except.ok c4GoodDetails
    ∧ (c4GoodDetails.completed = true ↔
        ((∃ v, backupMetadataDoc c4GoodWorld "2025-09-01T00:00:00Z"
            = Except.ok (some (JsonDoc.obj v (some true))))
          ∧ sameSet ((backupContents c4GoodWorld paramsOk "2025-09-01T00:00:00Z").map Prod.fst)
              expectedBackupFiles = true)) :=
  ⟨by decide,
    C4_completed_iff_success_and_exact_artifact_set c4GoodWorld paramsOk
      "2025-09-01T00:00:00Z" c4GoodDetails (by decide)⟩

/-! ## Claim C5 -/

/-- Decimal reading of a version component (kernel-reducible stand-in
for `String.toNat?`). -/
def decimalValue (s : String) : Option Nat :=
  if s.data ≠ [] ∧ s.data.all Char.isDigit then
    some (s.data.foldl (fun n c => n * 10 + (c.toNat - 48)) 0)
  else none

/-- The acceptance rule exactly as claim C5 words it (for comparison
with the source): equal major and minor components and a local
point-release that is not lower — point releases read as numbers. -/
def claimC5VersionAccepts (installed backup : String) : Bool :=
  match parse_version_components installed, parse_version_components backup with
  | Except.ok (iMaj, iMin, iPt), Except.ok (bMaj, bMin, bPt) =>
    iMaj == bMaj && iMin == bMin && decide ((decimalValue bPt).getD 0 ≤ (decimalValue iPt).getD 0)
  | _, _ => false

/-- A restore of a `3.6.9` backup onto a `3.6.10` installation. -/
def c5World : RestoreWorld :=
  { c2World with
    metadataDownload := some (S3Text.jsonObj (JsonDoc.obj (some "3.6.9") none)),
    installedVersion := some "3.6.10" }

/-- Claim C5 counterexample: local `3.6.10` restoring from a backup
recorded as `3.6.9` is an equal-major, equal-minor, newer-point restore,
so the claim accepts it — but the source compares point components as
Python strings and `"10" < "9"` holds, so the check rejects it. -/
theorem C5_point_comparison_counterexample :
    claimC5VersionAccepts "3.6.10" "3.6.9" = true
    ∧ (check_backup_maas_version c5World {}).map Prod.fst = Except.ok false := by
  decide

/-- Claim C5 (amended): with a recorded and a discoverable version that
both split into three dot components, the check succeeds exactly when
the major components match, the minor components match, and the local
point component is not lexicographically below the backup's (a Python
string comparison, not a numeric one). -/
theorem C5_version_check_is_lexicographic
    (w : RestoreWorld) (ev : Event) (bv iv : String)
    (hmeta : ∃ s, w.metadataDownload = some (S3Text.jsonObj (JsonDoc.obj (some bv) s)))
    (hbv : bv ≠ "") (hiv : w.installedVersion = some iv) (hivne : iv ≠ "")
    (iMaj iMin iPt bMaj bMin bPt : String)
    (hpi : parse_version_components iv = Except.ok (iMaj, iMin, iPt))
    (hpb : parse_version_components bv = Except.ok (bMaj, bMin, bPt)) :
    (check_backup_maas_version w ev).map Prod.fst
      = Except.ok (iMaj == bMaj && iMin == bMin && !(pyStrLt iPt bPt)) := by
  obtain ⟨s, hs⟩ := hmeta
  unfold check_backup_maas_version
  rw [hs, hiv]
  simp only [pyJsonLoads, Option.getD]
  rw [if_neg hbv, if_neg hivne, hpi, hpb]
  by_cases h1 : iMaj = bMaj
  · by_cases h2 : iMin = bMin
    · by_cases h3 : pyStrLt iPt bPt = true
      · simp [Except.map, h1, h2, h3]
      · simp [Except.map, h1, h2, h3]
    · simp [Except.map, h1, h2]
  · simp [Except.map, h1]

/-- A restore of a `3.6.1` backup onto a `3.6.2` installation. -/
def c5GoodWorld : RestoreWorld :=
  { c2World with
    metadataDownload := some (S3Text.jsonObj (JsonDoc.obj (some "3.6.1") none)),
    installedVersion := some "3.6.2" }

/-- Witness for the amended C5 theorem: `3.6.2` restoring from `3.6.1`
is accepted. -/
theorem C5_version_check_is_lexicographic_witness :
    parse_version_components "3.6.2" = Except.ok ("3", "6", "2")
    ∧ (check_backup_maas_version c5GoodWorld {}).map Prod.fst = Except.ok true := by
  refine ⟨by decide, ?_⟩
  have h := C5_version_check_is_lexicographic c5GoodWorld {} "3.6.1" "3.6.2"
    ⟨none, rfl⟩ (by decide) rfl (by decide) "3" "6" "2" "3" "6" "1" (by decide) (by decide)
  simpa using h

/-! ## Claims C6 and C10 -/

/-- Claim C6: with the controller list downloaded and the peer relation
present, the reassignment fails whenever the list cardinality differs
from the live peer count (local unit counted once) or the requested id
is not a member; it succeeds exactly when both hold, and then the
controller-identity file holds exactly the id plus one trailing
newline. -/
theorem C6_update_controller_id_contract
    (w : RestoreWorld) (controllerId : String) (ev : Event) (file content : String)
    (hdl : w.controllersDownload = some content)
    (hrel : w.peerRelationExists = true) :
    ((downloadedControllers content).length ≠ regionUnitCount w →
      (update_controller_id w controllerId ev file).1 = false)
    ∧ (controllerId ∉ downloadedControllers content →
      (update_controller_id w controllerId ev file).1 = false)
    ∧ ((update_controller_id w controllerId ev file).1 = true ↔
        ((downloadedControllers content).length = regionUnitCount w
          ∧ controllerId ∈ downloadedControllers content))
    ∧ ((update_controller_id w controllerId ev file).1 = true →
        (update_controller_id w controllerId ev file).2.2 = controllerId ++ "\n") := by
  unfold update_controller_id
  rw [hdl, hrel]
  by_cases hlen : (downloadedControllers content).length = regionUnitCount w
  · by_cases hmem : controllerId ∈ downloadedControllers content
    · simp [hlen, hmem]
    · simp [hlen, hmem]
  · simp [hlen]

/-- A two-unit cluster restoring a two-controller backup. -/
def c6World : RestoreWorld :=
  { c2World with
    controllersDownload := some "abc123\ndef456\n",
    remoteUnits := ["maas-region/1"], localUnit := "maas-region/0" }

/-- Witness for C6 at a concrete matching cluster: requesting member id
`abc123` succeeds and writes `abc123` plus a newline. -/
theorem C6_update_controller_id_contract_witness :
    c6World.controllersDownload = some "abc123\ndef456\n"
    ∧ c6World.peerRelationExists = true
    ∧ (((downloadedControllers "abc123\ndef456\n").length ≠ regionUnitCount c6World →
          (update_controller_id c6World "abc123" {} "old-controller\n").1 = false)
      ∧ ("abc123" ∉ downloadedControllers "abc123\ndef456\n" →
          (update_controller_id c6World "abc123" {} "old-controller\n").1 = false)
      ∧ ((update_controller_id c6World "abc123" {} "old-controller\n").1 = true ↔
          ((downloadedControllers "abc123\ndef456\n").length = regionUnitCount c6World
            ∧ "abc123" ∈ downloadedControllers "abc123\ndef456\n"))
      ∧ ((update_controller_id c6World "abc123" {} "old-controller\n").1 = true →
          (update_controller_id c6World "abc123" {} "old-controller\n").2.2
            = "abc123" ++ "\n")) :=
  ⟨rfl, rfl,
    C6_update_controller_id_contract c6World "abc123" {} "old-controller\n"
      "abc123\ndef456\n" rfl rfl⟩

/-- Claim C10: whenever `_update_controller_id` reports failure — for
any reason — the controller-identity file content is left unchanged;
the file is written only after every validation has passed. -/
theorem C10_controller_file_unchanged_on_failure
    (w : RestoreWorld) (controllerId : String) (ev : Event) (file : String)
    (h : (update_controller_id w controllerId ev file).1 = false) :
    (update_controller_id w controllerId ev file).2.2 = file := by
  cases hdl : w.controllersDownload with
  | none => simp [update_controller_id, hdl]
  | some content =>
    by_cases hrel : w.peerRelationExists = true
    · by_cases hlen : (downloadedControllers content).length = regionUnitCount w
      · by_cases hmem : controllerId ∈ downloadedControllers content
        · exfalso
          simp [update_controller_id, hdl, hrel, hlen, hmem] at h
        · simp [update_controller_id, hdl, hrel, hlen, hmem]
      · simp [update_controller_id, hdl, hrel, hlen]
    · simp [update_controller_id, hdl, hrel]

/-- Witness for C10: a controller id absent from the downloaded list
fails and leaves the file intact. -/
theorem C10_controller_file_unchanged_on_failure_witness :
    (update_controller_id c6World "zzz999" {} "old-controller\n").1 = false
    ∧ (update_controller_id c6World "zzz999" {} "old-controller\n").2.2
        = "old-controller\n" :=
  ⟨by decide,
    C10_controller_file_unchanged_on_failure c6World "zzz999" {} "old-controller\n" (by decide)⟩

/-! ## Claim C3 -/

/-- Whether an `Except` computation returned normally. -/
def exceptIsOk {ε α : Type} : Except ε α → Bool
  | Except.ok _ => true
  | Except.error _ => false

/-- The archive/upload phase (`_backup_maas_to_s3` as caught by
`_execute_backup_to_s3`) completes without error exactly when the
region enumeration and all three uploads succeed. -/
def archivePhaseOk (w : BackupWorld) : Bool :=
  exceptIsOk w.regionsResult && w.uploadControllerListOk
    && w.uploadImagesOk && w.uploadPreseedsOk

/-- A complete parameter set yields no missing-parameter report. -/
theorem retrieve_fst_ne_none (info : S3ConnInfo)
    (h : (retrieve_s3_parameters info).2 = []) :
    (retrieve_s3_parameters info).1 ≠ none := by
  by_cases hm : s3MissingParameters info = []
  · simp [retrieve_s3_parameters, hm]
  · simp [retrieve_s3_parameters, hm] at h

/-- Gate success implies settings success. -/
theorem settings_of_gate (env : BackupsEnv)
    (h : (can_unit_perform_backup env).1 = true) :
    (are_backup_settings_ok env).1 = true := by
  simp only [can_unit_perform_backup] at h
  split at h
  · simp at h
  · split at h
    · simp at h
    · exact h

/-- Settings success implies no missing parameter. -/
theorem no_missing_of_settings (env : BackupsEnv)
    (h : (are_backup_settings_ok env).1 = true) :
    (retrieve_s3_parameters env.s3ConnInfo).2 = [] := by
  simp only [are_backup_settings_ok] at h
  split at h
  · simp at h
  · split at h
    · simp at h
    · next hc => exact of_not_not hc

/-- `_run_backup` always attempts the metadata finalize: when the
metadata upload lands, its `success` flag is exactly the archive
phase's outcome, and an archive-phase failure always leaves the event
failed. -/
theorem run_backup_contract (w : BackupWorld) (p : S3Params) (ev : Event) :
    ((run_backup w p ev).2.map (fun m => m.success))
      = (if w.metadataUploadOk then [archivePhaseOk w] else [])
    ∧ (archivePhaseOk w = false → (run_backup w p ev).1.failures ≠ []) := by
  cases hr : w.regionsResult with
  | error e =>
    by_cases hm : w.metadataUploadOk = true <;>
      simp [run_backup, execute_backup_to_s3, backup_maas_to_s3, upload_backup_metadata,
        archivePhaseOk, eventFail, eventLog, eventSetResults, hr, hm, exceptIsOk]
  | ok regions =>
    by_cases h1 : w.uploadControllerListOk = true <;>
    by_cases h2 : w.uploadImagesOk = true <;>
    by_cases h3 : w.uploadPreseedsOk = true <;>
    by_cases hm : w.metadataUploadOk = true <;>
      simp [run_backup, execute_backup_to_s3, backup_maas_to_s3, upload_backup_metadata,
        archivePhaseOk, eventFail, eventLog, eventSetResults, hr, h1, h2, h3, hm, exceptIsOk]

/-- Claim C3: once the eligibility gate and the credential probe pass,
the metadata finalize runs regardless of the archive phase's outcome
with `success` set to exactly that outcome; in particular a failed
archive phase (for instance a failed controller enumeration,
`exceptIsOk w.regionsResult = false`) never stores `success=true`
metadata, and the command reports failure. -/
theorem C3_metadata_finalize_success_flag (w : BackupWorld)
    (hGate : (can_unit_perform_backup w.env).1 = true)
    (hProbe : w.probeUploadOk = true) :
    (on_create_backup_action w).map (fun r => r.2.map (fun m => m.success))
        = Except.ok (if w.metadataUploadOk then [archivePhaseOk w] else [])
    ∧ (archivePhaseOk w = false →
        (on_create_backup_action w).map
            (fun r => (r.2.all (fun m => !m.success), r.1.failures.isEmpty))
          = Except.ok (true, false)) := by
  have hset := settings_of_gate _ hGate
  have hmiss := no_missing_of_settings _ hset
  cases hp : (retrieve_s3_parameters w.env.s3ConnInfo).1 with
  | none => exact absurd hp (retrieve_fst_ne_none _ hmiss)
  | some p =>
    have hrb := run_backup_contract w p ({} : Event)
    simp only [on_create_backup_action, hGate, hProbe, hp, Bool.not_true, Bool.false_eq_true,
      if_false, Except.map]
    constructor
    · exact congrArg Except.ok hrb.1
    · intro hfail
      have h2 := hrb.2 hfail
      have h1 := hrb.1
      rw [hfail] at h1
      have hall : ((run_backup w p ({} : Event)).2).all (fun m => !m.success) = true := by
        have h3 := congrArg (fun l => l.all (fun b => !b)) h1
        simp only [List.all_map] at h3
        cases hm : w.metadataUploadOk <;> rw [hm] at h3 <;>
          simpa [Function.comp] using h3
      have hemp : ((run_backup w p ({} : Event)).1).failures.isEmpty = false := by
        cases hfe : (run_backup w p ({} : Event)).1.failures with
        | nil => exact absurd hfe h2
        | cons a l => simp
      simp [hall, hemp]

/-- A gated-through backup whose controller enumeration fails but whose
metadata upload lands. -/
def c3World : BackupWorld :=
  { env := envOk, clock := c9Clock,
    probeUploadOk := true, regionsResult := Except.error (),
    uploadControllerListOk := true, uploadImagesOk := true, uploadPreseedsOk := true,
    metadataUploadOk := true, installedVersion := some "3.6.1" }

/-- Witness for C3 at a concrete failed controller enumeration. -/
theorem C3_metadata_finalize_success_flag_witness :
    (can_unit_perform_backup c3World.env).1 = true
    ∧ c3World.probeUploadOk = true
    ∧ ((on_create_backup_action c3World).map (fun r => r.2.map (fun m => m.success))
          = Except.ok (if c3World.metadataUploadOk then [archivePhaseOk c3World] else [])
      ∧ (archivePhaseOk c3World = false →
          (on_create_backup_action c3World).map
              (fun r => (r.2.all (fun m => !m.success), r.1.failures.isEmpty))
            = Except.ok (true, false))) :=
  ⟨by decide, rfl, C3_metadata_finalize_success_flag c3World (by decide) rfl⟩

/-! ## Claim C8 -/

/-- A metadata body that `json.loads` can parse (or that is absent). -/
def metadataBodyWellFormed : Option S3Text → Bool
  | some (S3Text.jsonObj JsonDoc.malformed) => false
  | some (S3Text.plain _) => false
  | _ => true

/-- Every raised error of the computation is a `BotoCoreError`. -/
def onlyBotoError {α : Type} : Except PyExc α → Bool
  | Except.error e => e == PyExc.botoCoreError
  | Except.ok _ => true

/-- The paginator raised nothing, or only a `BotoCoreError`. -/
def onlyBotoOpt : Option PyExc → Bool
  | some e => e == PyExc.botoCoreError
  | none => true

/-- Both version strings that the restore path would unpack split into
exactly three dot components (when present and non-empty). -/
def versionStringsWellFormed (w : RestoreWorld) : Bool :=
  (match w.installedVersion with
   | some iv => iv == "" || exceptIsOk (parse_version_components iv)
   | none => true)
  && (match w.metadataDownload with
      | some (S3Text.jsonObj (JsonDoc.obj (some v) _)) =>
        v == "" || exceptIsOk (parse_version_components v)
      | _ => true)

/-- The identities the listing pipeline would visit. -/
def catalogIds (env : BackupsEnv) (cw : CatalogWorld) : List String :=
  match (retrieve_s3_parameters env.s3ConnInfo).1 with
  | some p => listBackupIds p.path cw.commonPrefixes
  | none => []

/-- Every visited backup prefix has a positive aggregate size, keeping
`as_size` away from its logarithm-of-zero `ValueError`. -/
def catalogSizesPositive (env : BackupsEnv) (cw : CatalogWorld) : Bool :=
  match (retrieve_s3_parameters env.s3ConnInfo).1 with
  | some p => (listBackupIds p.path cw.commonPrefixes).all
      (fun id => backupTotalSize cw p id != 0)
  | none => true

/-- A restore whose downloaded metadata is undecodable JSON. -/
def c8RestoreWorld : RestoreWorld :=
  { c2World with metadataDownload := some (S3Text.jsonObj JsonDoc.malformed) }

/-- A restore onto an installation whose version string has only two
dot components. -/
def c8ShortVersionWorld : RestoreWorld :=
  { c2World with
    metadataDownload := some (S3Text.jsonObj (JsonDoc.obj (some "3.6.1") none)),
    installedVersion := some "3.6" }

/-- A catalog whose single backup carries undecodable metadata (its
prefix holds a positive-size object, so `as_size` is benign). -/
def c8ListWorld : CatalogWorld :=
  { commonPrefixes := ["test-path/backup/B1/"],
    objectsUnder := fun _ => [("test-path/backup/B1/" ++ METADATA_FILENAME, 1024)],
    readContent := fun path =>
      if path = "backup/B1/" ++ METADATA_FILENAME then
        some (S3Text.jsonObj JsonDoc.malformed)
      else none }

/-- A catalog listing a backup prefix with no objects under it (zero
aggregate size). -/
def c8ZeroSizeWorld : CatalogWorld :=
  { commonPrefixes := ["test-path/backup/B2/"] }

/-- Claim C8 counterexample: a malformed metadata body makes
`json.loads` raise outside every handler in both the restore and the
list actions, a two-component version string makes the tuple unpacking
raise `ValueError` in the restore action, and a listed backup prefix
with zero aggregate size makes `as_size(0)` raise `ValueError` in the
list action — the exceptions escape the handlers instead of becoming
failure messages. -/
theorem C8_uncaught_exception_counterexample :
    on_restore_backup_action c8RestoreWorld = Except.error PyExc.jsonDecodeError
    ∧ on_restore_backup_action c8ShortVersionWorld = Except.error PyExc.valueError
    ∧ on_list_backups_action envOk c8ListWorld = Except.error PyExc.jsonDecodeError
    ∧ on_list_backups_action envOk c8ZeroSizeWorld = Except.error PyExc.valueError := by
  decide

/-- With decodable metadata and three-component version strings the
version check returns gracefully. -/
theorem check_version_isOk (w : RestoreWorld) (ev : Event)
    (h1 : metadataBodyWellFormed w.metadataDownload = true)
    (h3 : versionStringsWellFormed w = true) :
    exceptIsOk (check_backup_maas_version w ev) = true := by
  unfold check_backup_maas_version
  cases hmd : w.metadataDownload with
  | none => rfl
  | some body =>
    cases body with
    | plain s => rw [hmd] at h1; simp [metadataBodyWellFormed] at h1
    | jsonObj doc =>
      cases doc with
      | malformed => rw [hmd] at h1; simp [metadataBodyWellFormed] at h1
      | obj v s =>
        simp only [pyJsonLoads]
        by_cases hb : v.getD "" = ""
        · simp [hb, exceptIsOk]
        · rw [if_neg hb]
          by_cases hi : w.installedVersion.getD "" = ""
          · simp [hi, exceptIsOk]
          · rw [if_neg hi]
            obtain ⟨iv, hiv⟩ : ∃ iv, w.installedVersion = some iv := by
              cases hx : w.installedVersion with
              | none => rw [hx] at hi; simp at hi
              | some iv => exact ⟨iv, rfl⟩
            obtain ⟨bv, hbv⟩ : ∃ bv, v = some bv := by
              cases hx : v with
              | none => rw [hx] at hb; simp at hb
              | some bv => exact ⟨bv, rfl⟩
            unfold versionStringsWellFormed at h3
            rw [hmd, hiv] at h3
            rw [hbv] at h3 hb
            rw [hiv] at hi
            simp only [Option.getD_some] at hb hi
            simp only [Bool.and_eq_true, Bool.or_eq_true, beq_iff_eq] at h3
            have hpi : exceptIsOk (parse_version_components iv) = true :=
              (h3.1).resolve_left hi
            have hpb : exceptIsOk (parse_version_components bv) = true :=
              (h3.2).resolve_left hb
            rw [hiv, hbv]
            simp only [Option.getD_some]
            cases hp1 : parse_version_components iv with
            | error e => rw [hp1] at hpi; simp [exceptIsOk] at hpi
            | ok t1 =>
              cases hp2 : parse_version_components bv with
              | error e => rw [hp2] at hpb; simp [exceptIsOk] at hpb
              | ok t2 =>
                obtain ⟨a1, b1, c1⟩ := t1
                obtain ⟨a2, b2, c2⟩ := t2
                by_cases e1 : a1 = a2 <;> by_cases e2 : b1 = b2 <;>
                  by_cases e3 : pyStrLt c1 c2 = true <;>
                    simp [e1, e2, e3, exceptIsOk]

/-- With a healthy paginator and decodable metadata the per-backup
detail loop returns normally. -/
theorem backupDetailsList_isOk (cw : CatalogWorld) (p : S3Params) (ids : List String)
    (hle : cw.listingError = none)
    (h : ∀ id ∈ ids, exceptIsOk (backupMetadataDoc cw id) = true)
    (hsz : ∀ id ∈ ids, backupTotalSize cw p id ≠ 0) :
    exceptIsOk (backupDetailsList cw p ids) = true := by
  induction ids with
  | nil => rfl
  | cons id ids ih =>
    have hid := h id (List.mem_cons_self _ _)
    have hrest := fun i hi => h i (List.mem_cons_of_mem _ hi)
    have hszrest := fun i hi => hsz i (List.mem_cons_of_mem _ hi)
    have hgd : exceptIsOk (get_backup_details cw p id) = true := by
      unfold get_backup_details
      rw [hle]
      simp only [as_size]
      rw [if_neg (hsz id (List.mem_cons_self _ _))]
      cases hmd : backupMetadataDoc cw id with
      | error e => rw [hmd] at hid; simp [exceptIsOk] at hid
      | ok m => simp [exceptIsOk]
    cases hgde : get_backup_details cw p id with
    | error e => rw [hgde] at hgd; simp [exceptIsOk] at hgd
    | ok d =>
      unfold backupDetailsList
      rw [hgde]
      cases hrec : backupDetailsList cw p ids with
      | error e =>
        have hih := ih hrest hszrest
        rw [hrec] at hih
        simp [exceptIsOk] at hih
      | ok l => simp [exceptIsOk, Except.map]

/-- The create-backup handler never raises: every failure path ends in
an `event.fail`. -/
theorem on_create_isOk (bw : BackupWorld) :
    exceptIsOk (on_create_backup_action bw) = true := by
  unfold on_create_backup_action
  by_cases hg : (can_unit_perform_backup bw.env).1 = true
  · have hmiss := no_missing_of_settings _ (settings_of_gate _ hg)
    cases hp : (retrieve_s3_parameters bw.env.s3ConnInfo).1 with
    | none => exact absurd hp (retrieve_fst_ne_none _ hmiss)
    | some p =>
      by_cases hprobe : bw.probeUploadOk = true <;>
        simp [hg, hp, hprobe, exceptIsOk]
  · simp [hg, exceptIsOk]

/-- The list-backups handler raises only what the settings gate and the
metadata decoding let through. -/
theorem on_list_isOk (env : BackupsEnv) (cw : CatalogWorld)
    (h4 : onlyBotoOpt cw.listingError = true)
    (h5 : ∀ id ∈ catalogIds env cw, exceptIsOk (backupMetadataDoc cw id) = true)
    (h6 : catalogSizesPositive env cw = true) :
    exceptIsOk (on_list_backups_action env cw) = true := by
  unfold on_list_backups_action
  by_cases hs : (are_backup_settings_ok env).1 = true
  · have hmiss := no_missing_of_settings env hs
    cases hp : (retrieve_s3_parameters env.s3ConnInfo).1 with
    | none => exact absurd hp (retrieve_fst_ne_none _ hmiss)
    | some p =>
      have h5p : ∀ id ∈ listBackupIds p.path cw.commonPrefixes,
          exceptIsOk (backupMetadataDoc cw id) = true := by
        intro id hid
        exact h5 id (by unfold catalogIds; rw [hp]; exact hid)
      have h6p : ∀ id ∈ listBackupIds p.path cw.commonPrefixes,
          backupTotalSize cw p id ≠ 0 := by
        intro id hid
        unfold catalogSizesPositive at h6
        rw [hp] at h6
        simp only [List.all_eq_true, bne_iff_ne, ne_eq] at h6
        exact h6 id hid
      cases hle : cw.listingError with
      | some e =>
        have he : e = PyExc.botoCoreError := by
          rw [hle] at h4
          simpa [onlyBotoOpt] using h4
        subst he
        simp [hs, generate_backup_list_output, generate_backup_rows, list_backups,
          hp, hle, exceptIsOk, Except.map]
      | none =>
        have hdl := backupDetailsList_isOk cw p (listBackupIds p.path cw.commonPrefixes)
          hle h5p h6p
        cases hbd : backupDetailsList cw p (listBackupIds p.path cw.commonPrefixes) with
        | error e => rw [hbd] at hdl; simp [exceptIsOk] at hdl
        | ok l =>
          simp [hs, generate_backup_list_output, generate_backup_rows, list_backups,
            hp, hle, hbd, exceptIsOk, Except.map]
  · simp [hs, exceptIsOk]

/-- The restore handler raises only through `json.loads`, the version
unpacking, or a non-transport listing exception. -/
theorem on_restore_isOk (w : RestoreWorld)
    (h1 : metadataBodyWellFormed w.metadataDownload = true)
    (h2 : onlyBotoError w.listBackupsResult = true)
    (h3 : versionStringsWellFormed w = true) :
    exceptIsOk (on_restore_backup_action w) = true := by
  unfold on_restore_backup_action
  by_cases hpre : (pre_restore_checks w.env w.params {}).1 = true
  · cases hlb : w.listBackupsResult with
    | error e =>
      have he : e = PyExc.botoCoreError := by
        rw [hlb] at h2
        simpa [onlyBotoError] using h2
      subst he
      simp [hpre, hlb, exceptIsOk]
    | ok backups =>
      by_cases hbid : (w.params.backupId.getD "" ≠ ""
          ∧ w.params.backupId.getD "" ∉ backups)
      · simp [hpre, hlb, hbid, exceptIsOk]
      · have hcv := check_version_isOk w (pre_restore_checks w.env w.params {}).2 h1 h3
        cases hcve : check_backup_maas_version w (pre_restore_checks w.env w.params {}).2 with
        | error e => rw [hcve] at hcv; simp [exceptIsOk] at hcv
        | ok vres =>
          obtain ⟨versionOk, ev1⟩ := vres
          cases versionOk with
          | false => simp [hpre, hlb, hbid, run_restore, hcve, exceptIsOk]
          | true =>
            rcases hu : update_controller_id w (w.params.controllerId.getD "") ev1
              w.controllerIdFile with ⟨idOk, ev2, file2⟩
            cases idOk with
            | false =>
              simp [hpre, hlb, hbid, run_restore, hcve, hu, exceptIsOk]
            | true =>
              by_cases hps : w.preseedRestoreOk = true <;>
                by_cases him : w.imageRestoreOk = true <;>
                  simp [hpre, hlb, hbid, run_restore, hcve, hu, hps, him, exceptIsOk]
  · simp [hpre, exceptIsOk]

/-- Claim C8 (amended): for the operator-facing actions every modeled
failure is caught inside the handler and converted into failure
messages, EXCEPT undecodable backup-metadata JSON, version strings with
fewer than three dot components, and listed backup prefixes with zero
aggregate size (`as_size(0)`), which raise uncaught (see the
counterexample): under the corresponding well-formedness assumptions no
exception escapes the restore, list or create handlers. -/
theorem C8_handlers_catch_failures_outside_json_and_version_paths
    (w : RestoreWorld) (env : BackupsEnv) (cw : CatalogWorld) (bw : BackupWorld)
    (h1 : metadataBodyWellFormed w.metadataDownload = true)
    (h2 : onlyBotoError w.listBackupsResult = true)
    (h3 : versionStringsWellFormed w = true)
    (h4 : onlyBotoOpt cw.listingError = true)
    (h5 : ∀ id ∈ catalogIds env cw, exceptIsOk (backupMetadataDoc cw id) = true)
    (h6 : catalogSizesPositive env cw = true) :
    exceptIsOk (on_restore_backup_action w) = true
    ∧ exceptIsOk (on_list_backups_action env cw) = true
    ∧ exceptIsOk (on_create_backup_action bw) = true :=
  ⟨on_restore_isOk w h1 h2 h3, on_list_isOk env cw h4 h5 h6, on_create_isOk bw⟩

/-- Witness for the amended C8 theorem at concrete well-formed worlds. -/
theorem C8_handlers_catch_failures_outside_json_and_version_paths_witness :
    metadataBodyWellFormed c2World.metadataDownload = true
    ∧ onlyBotoError c2World.listBackupsResult = true
    ∧ versionStringsWellFormed c2World = true
    ∧ onlyBotoOpt c4GoodWorld.listingError = true
    ∧ catalogSizesPositive envOk c4GoodWorld = true
    ∧ (exceptIsOk (on_restore_backup_action c2World) = true
      ∧ exceptIsOk (on_list_backups_action envOk c4GoodWorld) = true
      ∧ exceptIsOk (on_create_backup_action c3World) = true) :=
  ⟨by decide, by decide, by decide, by decide, by decide,
    C8_handlers_catch_failures_outside_json_and_version_paths c2World envOk c4GoodWorld
      c3World (by decide) (by decide) (by decide) (by decide) (by decide) (by decide)⟩
